import Mathlib

/- Shallow embedding of the spatial indexing and gridding engine of
geophys_utils/_netcdf_point_utils.py (class NetCDFPointUtils).

Modelling conventions:
* Coordinates, bounds and resolutions are exact rationals.
* Euclidean distances are represented by their squares (sq_dist), keeping every
  value rational; a comparison of a distance against a bound d is made as a
  comparison of the squared distance against d^2 (a monotone bijection on the
  nonnegative reals, so ordering and thresholds are preserved exactly).
  cKDTree's infinite-distance sentinel for a missing neighbour is modelled as
  none, with the accompanying out-of-range index n = tree size, exactly as
  scipy.spatial.cKDTree.query documents.
* Python exceptions are values of PyError; functions that can raise return
  Except PyError.
* numpy collaborators (np.where, np.logical_and, boolean masking, integer fancy
  indexing) are modelled by their documented semantics on lists. -/

namespace GeophysUtils

/-- Python-level failure kinds relevant to the embedded code paths.
datasetShapeError is the error kind named by the specification; the source
never raises it (no such class exists in the repository). nonTermination marks
the non-terminating while loop in fetch_array reached when max_elements is
computed as 0 (itemsize larger than max_bytes). -/
inductive PyError where
  | keyError
  | indexError
  | assertionError
  | zeroDivisionError
  | datasetShapeError
  | nonTermination
deriving DecidableEq

/-- An axis-aligned bounding box, the source's 4-list [xmin, ymin, xmax, ymax]
(bounds[0], bounds[1], bounds[2], bounds[3]). -/
structure Bounds where
  xmin : ℚ
  ymin : ℚ
  xmax : ℚ
  ymax : ℚ
deriving DecidableEq

/-- np.where(mask)[0]: the indices at which a boolean vector is true, ascending. -/
def np_where (mask : List Bool) : List ℕ :=
  (mask.enum.filter fun p => p.2).map fun p => p.1

/-- np.logical_and on two boolean vectors. -/
def np_logical_and (a b : List Bool) : List Bool :=
  List.zipWith (fun x y => x && y) a b

/-- numpy integer fancy indexing arr[idxs] on a 1-D integer array: an
out-of-range index raises IndexError. -/
def np_fancy_index (arr : List ℕ) (idxs : List ℕ) : Except PyError (List ℕ) :=
  idxs.mapM fun i =>
    if h : i < arr.length then Except.ok (arr.get ⟨i, h⟩) else Except.error PyError.indexError

/-- NetCDFPointUtils.get_spatial_mask (source lines 136-147): boolean mask over
the point dimension, true where a coordinate lies inside the closed rectangle
bounds[0] ≤ x ≤ bounds[2] and bounds[1] ≤ y ≤ bounds[3]. When bounds_wkt is
given the cached coordinates are first reprojected by the external
transform_coords collaborator, which is passed in as a function argument. -/
def get_spatial_mask (transform_coords : List (ℚ × ℚ) → String → String → List (ℚ × ℚ))
    (self_wkt : String) (xycoords : List (ℚ × ℚ)) (bounds : Bounds)
    (bounds_wkt : Option String) : List Bool :=
  let coordinates :=
    match bounds_wkt with
    | none => xycoords
    | some w => transform_coords xycoords self_wkt w
  coordinates.map fun p =>
    (decide (bounds.xmin ≤ p.1) && decide (p.1 ≤ bounds.xmax)) &&
      (decide (bounds.ymin ≤ p.2) && decide (p.2 ≤ bounds.ymax))

/-- NetCDFPointUtils.get_reprojected_bounds (source lines 151-167): identity when
either CRS is unset or both are equal; otherwise transforms all four corners
through the external transform_coords collaborator and takes the per-axis
min/max envelope (min and max over the transformed corner list, modelled by a
fold from the head as python min/max over a nonempty sequence; an empty
transform result falls back to the input, a case the source never produces). -/
def get_reprojected_bounds (transform_coords : List (ℚ × ℚ) → String → String → List (ℚ × ℚ))
    (bounds : Bounds) (from_wkt to_wkt : Option String) : Bounds :=
  if to_wkt = none ∨ from_wkt = none ∨ to_wkt = from_wkt then bounds
  else
    match transform_coords
        [(bounds.xmin, bounds.ymin), (bounds.xmax, bounds.ymin),
         (bounds.xmax, bounds.ymax), (bounds.xmin, bounds.ymax)]
        (from_wkt.getD "") (to_wkt.getD "") with
    | [] => bounds
    | p :: ps =>
      ⟨ps.foldl (fun acc q => min acc q.1) p.1,
       ps.foldl (fun acc q => min acc q.2) p.2,
       ps.foldl (fun acc q => max acc q.1) p.1,
       ps.foldl (fun acc q => max acc q.2) p.2⟩

/-- Squared Euclidean distance between two coordinate pairs. -/
def sq_dist (p q : ℚ × ℚ) : ℚ :=
  (p.1 - q.1) ^ 2 + (p.2 - q.2) ^ 2

/-- Insert a (squared distance, local index) pair into a list sorted by distance
(ties broken by index, one concrete realisation of scipy's unspecified
equidistant ordering). -/
def insert_by_dist (a : ℚ × ℕ) : List (ℚ × ℕ) → List (ℚ × ℕ)
  | [] => [a]
  | b :: bs =>
    if a.1 < b.1 ∨ (a.1 = b.1 ∧ a.2 < b.2) then a :: b :: bs
    else b :: insert_by_dist a bs

/-- Sort (squared distance, local index) pairs by distance then index. -/
def sort_by_dist : List (ℚ × ℕ) → List (ℚ × ℕ)
  | [] => []
  | a :: as => insert_by_dist a (sort_by_dist as)

/-- scipy.spatial.cKDTree: the model keeps the point set the tree was built
over; query semantics are the documented ones. -/
structure cKDTree where
  data : List (ℚ × ℚ)
deriving DecidableEq

/-- cKDTree.query(x, k, distance_upper_bound): the k nearest points of the tree
to x, restricted to squared distance ≤ sq_upper_bound when a bound is given
(none = infinity). Each hit is (some squared-distance, local index); when fewer
than k neighbours qualify, the remaining entries are the documented sentinel
(infinite distance, index = tree size), modelled as (none, data.length). -/
def cKDTree.query (t : cKDTree) (x : ℚ × ℚ) (k : ℕ) (sq_upper_bound : Option ℚ) :
    List (Option ℚ × ℕ) :=
  let cands := t.data.enum.map fun p => (sq_dist x p.2, p.1)
  let within := cands.filter fun c =>
    match sq_upper_bound with
    | none => true
    | some b => decide (c.1 ≤ b)
  let hits := (sort_by_dist within).take k
  hits.map (fun c => ((some c.1 : Option ℚ), c.2)) ++
    List.replicate (k - hits.length) ((none : Option ℚ), t.data.length)

/-- The mutable per-instance state of a NetCDFPointUtils object that
nearest_neighbours reads and writes: the coordinate cache xycoords (index i in
the cache is point index i of the dataset), the native CRS well-known text, and
the lazily built cached KD-tree self.kdtree (None until first unbounded query). -/
structure NetCDFPointUtilsState where
  xycoords : List (ℚ × ℚ)
  wkt : String
  kdtree : Option cKDTree
deriving DecidableEq

/-- NetCDFPointUtils.nearest_neighbours (source lines 325-393), as explicit
state passing: returns ((distances, indices), updated state) or the raised
Python error. transform_coords is the external single-coordinate reprojection
used when a query CRS is supplied; the internal get_spatial_mask call passes no
bounds_wkt, so its transform argument is never consulted. Distances are squared
(see module conventions); the source passes distance_upper_bound=max_distance,
modelled as squared bound d^2. The source's truthiness test "if max_distance:"
is false for None and for 0, so max_distance=0 takes the cached-tree branch. -/
def nearest_neighbours (transform_coords : (ℚ × ℚ) → String → String → (ℚ × ℚ))
    (self : NetCDFPointUtilsState) (coordinates : ℚ × ℚ) (wkt : Option String)
    (points_required : ℕ) (max_distance : Option ℚ) (secondary_mask : Option (List Bool)) :
    Except PyError ((List (Option ℚ) × List ℕ) × NetCDFPointUtilsState) :=
  let reprojected_coords :=
    match wkt with
    | some w => transform_coords coordinates w self.wkt
    | none => coordinates
  let point_count := self.xycoords.length
  let query_cached := fun (sm : List Bool) =>
    let pair :=
      match self.kdtree with
      | some t => (t, self)
      | none =>
        let t : cKDTree := ⟨(np_where sm).filterMap fun i => self.xycoords[i]?⟩
        (t, { self with kdtree := some t })
    let res := pair.1.query reprojected_coords points_required none
    Except.ok ((res.map fun c => c.1, res.map fun c => c.2), pair.2)
  let query_bounded := fun (sm : List Bool) (d : ℚ) =>
    let spatial_mask := get_spatial_mask (fun cs _ _ => cs) self.wkt self.xycoords
      ⟨reprojected_coords.1 - d, reprojected_coords.2 - d,
       reprojected_coords.1 + d, reprojected_coords.2 + d⟩ none
    let point_indices := np_where (np_logical_and spatial_mask sm)
    if point_indices.length = 0 then Except.ok (([], []), self)
    else
      let kdtree : cKDTree := ⟨point_indices.filterMap fun i => self.xycoords[i]?⟩
      let res := kdtree.query reprojected_coords points_required (some (d ^ 2))
      match np_fancy_index (np_where spatial_mask) (res.map fun c => c.2) with
      | Except.ok original_indices =>
        Except.ok ((res.map fun c => c.1, original_indices), self)
      | Except.error e => Except.error e
  let rest := fun (sm : List Bool) =>
    match max_distance with
    | some d => if d = 0 then query_cached sm else query_bounded sm d
    | none => query_cached sm
  match secondary_mask with
  | none => rest (List.replicate point_count true)
  | some m => if m.length = point_count then rest m else Except.error PyError.assertionError

/-- The while loop of fetch_array (source lines 120-126), collecting the copied
slice boundaries (start_index, end_index). The fuel argument only bounds the
iteration count for structural recursion; source_len iterations always suffice
when max_elements ≥ 1, and fetch_array separately reports the max_elements = 0
case in which the Python loop never terminates. -/
def fetch_loop (source_len max_elements : ℕ) : ℕ → ℕ → List (ℕ × ℕ)
  | _, 0 => []
  | start_index, fuel + 1 =>
    if start_index < source_len then
      (start_index, min (start_index + max_elements) source_len) ::
        fetch_loop source_len max_elements (start_index + max_elements) fuel
    else []

/-- max_elements as computed by fetch_array (source lines 114-115):
pieces_required = max(itemsize * source_len // max_bytes, 1) and
max_elements = source_len // pieces_required, both with floor division. -/
def fetch_max_elements (max_bytes itemsize source_len : ℕ) : ℕ :=
  source_len / max (itemsize * source_len / max_bytes) 1

/-- The list of copied slices of fetch_array for a given max_elements. -/
def fetch_slices (max_elements source_len : ℕ) : List (ℕ × ℕ) :=
  fetch_loop source_len max_elements 0 source_len

/-- The slices fetch_array copies for given max_bytes, itemsize and array length. -/
def fetch_array_slices (max_bytes itemsize source_len : ℕ) : List (ℕ × ℕ) :=
  fetch_slices (fetch_max_elements max_bytes itemsize source_len) source_len

/-- One slice assignment cache_array[start:end] = source_array[start:end]
(source line 124) on a materialised cache list. -/
def write_slice (cache source_array : List ℚ) (start_index end_index : ℕ) : List ℚ :=
  cache.enum.map fun p =>
    if start_index ≤ p.1 ∧ p.1 < end_index then source_array.getD p.1 0 else p.2

/-- NetCDFPointUtils.fetch_array (source lines 109-128): copy a 1-D array into a
fresh zero-initialised array slice by slice. source_array[0].itemsize raises
IndexError on an empty array; a zero max_bytes raises ZeroDivisionError in the
floor division; if max_elements computes to 0 the while loop never advances
(reported as nonTermination). itemsize is passed separately since list elements
are exact rationals. -/
def fetch_array (max_bytes itemsize : ℕ) (source_array : List ℚ) : Except PyError (List ℚ) :=
  if source_array = [] then Except.error PyError.indexError
  else if max_bytes = 0 then Except.error PyError.zeroDivisionError
  else if fetch_max_elements max_bytes itemsize source_array.length = 0 then
    Except.error PyError.nonTermination
  else
    Except.ok
      ((fetch_slices (fetch_max_elements max_bytes itemsize source_array.length)
          source_array.length).foldl
        (fun cache s => write_slice cache source_array s.1 s.2)
        (List.replicate source_array.length 0))

/-- An opened netCDF dataset handle as NetCDFPointUtils.init sees it: the length
of the point dimension and the optional longitude/latitude variables (a missing
variable is a missing key in netcdf_dataset.variables). A present variable has
the point dimension, hence point_len values. -/
structure Dataset where
  point_len : ℕ
  longitude : Option (ℕ → ℚ)
  latitude : Option (ℕ → ℚ)

/-- The failure-relevant prefix of NetCDFPointUtils.init (source lines 62-94):
looks up variables['longitude'] (line 69, KeyError when absent), copies it with
fetch_array (line 80, IndexError on a zero-length point dimension), looks up
variables['latitude'] (line 81, KeyError when absent) and copies it, producing
the xycoords coordinate cache. -/
def pointUtils_init (max_bytes itemsize : ℕ) (ds : Dataset) :
    Except PyError (List (ℚ × ℚ)) :=
  match ds.longitude with
  | none => Except.error PyError.keyError
  | some lonf =>
    match fetch_array max_bytes itemsize ((List.range ds.point_len).map lonf) with
    | Except.error e => Except.error e
    | Except.ok lon_cache =>
      match ds.latitude with
      | none => Except.error PyError.keyError
      | some latf =>
        match fetch_array max_bytes itemsize ((List.range ds.point_len).map latf) with
        | Except.error e => Except.error e
        | Except.ok lat_cache => Except.ok (lon_cache.zip lat_cache)

/-- Python's round-half-to-even of a rational to an integer. -/
def round_half_even (x : ℚ) : ℤ :=
  if x - (⌊x⌋ : ℚ) < 1 / 2 then ⌊x⌋
  else if x - (⌊x⌋ : ℚ) > 1 / 2 then ⌊x⌋ + 1
  else if ⌊x⌋ % 2 = 0 then ⌊x⌋ else ⌊x⌋ + 1

/-- Python's round(x, 6): round to six decimal places, half to even. -/
def pyRound6 (x : ℚ) : ℚ :=
  (round_half_even (x * 1000000) : ℚ) / 1000000

/-- The pixel_centre_bounds tuple of grid_points (source lines 211-215): lower
edges snap by floor to a multiple of the resolution; upper edges are computed
as floor(bound / resolution - 1) * resolution + resolution; every component is
passed through round(..., 6). -/
def pixel_centre_bounds (grid_resolution : ℚ) (reprojected_grid_bounds : Bounds) : Bounds :=
  ⟨pyRound6 ((⌊reprojected_grid_bounds.xmin / grid_resolution⌋ : ℚ) * grid_resolution),
   pyRound6 ((⌊reprojected_grid_bounds.ymin / grid_resolution⌋ : ℚ) * grid_resolution),
   pyRound6 ((⌊reprojected_grid_bounds.xmax / grid_resolution - 1⌋ : ℚ) * grid_resolution
     + grid_resolution),
   pyRound6 ((⌊reprojected_grid_bounds.ymax / grid_resolution - 1⌋ : ℚ) * grid_resolution
     + grid_resolution)⟩

/-- Length of np.arange(start, stop, step) (also the per-axis extent of
np.mgrid[start:stop:step]): ceil((stop - start) / step) clamped at zero. -/
def np_arange_len (start stop step : ℚ) : ℕ :=
  (⌈(stop - start) / step⌉).toNat

/-- The (rows, columns) shape of the grid produced by np.mgrid in grid_points
(source lines 230-231): rows run from pixel_centre_bounds[3] down past
pixel_centre_bounds[1] - resolution/2 with step -resolution, columns from
pixel_centre_bounds[0] up past pixel_centre_bounds[2] + resolution/2 with step
resolution (the half-resolution fudge of the source). -/
def grid_shape (grid_resolution : ℚ) (pcb : Bounds) : ℕ × ℕ :=
  (np_arange_len pcb.ymax (pcb.ymin - grid_resolution / 2) (-grid_resolution),
   np_arange_len pcb.xmin (pcb.xmax + grid_resolution / 2) grid_resolution)

/-- The GDAL geotransform emitted by grid_points (source lines 257-263):
[origin_x, resolution, 0, origin_y, 0, -resolution] with the origin at the
upper-left pixel edge, half a cell out from the first pixel centre. -/
def geotransform (grid_resolution : ℚ) (pcb : Bounds) : List ℚ :=
  [pcb.xmin - grid_resolution / 2, grid_resolution, 0,
   pcb.ymax + grid_resolution / 2, 0, -grid_resolution]

/-- The envelope obtained by applying the emitted geotransform to the grid's
pixel index bounds: x from origin to origin + columns * resolution, y from
origin down to origin - rows * resolution. -/
def grid_envelope (grid_resolution : ℚ) (reprojected_grid_bounds : Bounds) : Bounds :=
  let pcb := pixel_centre_bounds grid_resolution reprojected_grid_bounds
  let shape := grid_shape grid_resolution pcb
  let gt := geotransform grid_resolution pcb
  ⟨gt.getD 0 0,
   gt.getD 3 0 + (shape.1 : ℚ) * gt.getD 5 0,
   gt.getD 0 0 + (shape.2 : ℚ) * gt.getD 1 0,
   gt.getD 3 0⟩

/-- One bounding box containing another (all four edges enclose). -/
def contains_bounds (outer inner : Bounds) : Prop :=
  outer.xmin ≤ inner.xmin ∧ outer.ymin ≤ inner.ymin ∧
    inner.xmax ≤ outer.xmax ∧ inner.ymax ≤ outer.ymax

instance (outer inner : Bounds) : Decidable (contains_bounds outer inner) := by
  unfold contains_bounds
  infer_instance

/-- The decimation half of the point-subset mask of grid_points (source lines
235-236): a False array over the point dimension with the slice assignment
mask[0:-1:point_step] = True, i.e. true exactly at the indices that are
multiples of point_step and strictly below length - 1 (the Python slice stop -1
excludes the last element). -/
def point_decimation_mask (point_dim_len point_step : ℕ) : List Bool :=
  (List.range point_dim_len).map fun i =>
    decide (i < point_dim_len - 1) && decide (i % point_step = 0)

/-- The combined point-subset mask of grid_points (source line 237):
np.logical_and of the spatial subset mask and the decimation mask (the mask
shape is the point dimension, the spatial mask's length). -/
def point_subset_mask (spatial_subset_mask : List Bool) (point_step : ℕ) : List Bool :=
  np_logical_and spatial_subset_mask
    (point_decimation_mask spatial_subset_mask.length point_step)


theorem fetch_max_elements_pos (max_bytes itemsize source_len : ℕ)
    (hmb : 0 < max_bytes) (hisz : itemsize ≤ max_bytes) (hn : 0 < source_len) :
    0 < fetch_max_elements max_bytes itemsize source_len := by
  unfold fetch_max_elements
  have hdiv : itemsize * source_len / max_bytes ≤ source_len := by
    calc itemsize * source_len / max_bytes
        ≤ max_bytes * source_len / max_bytes :=
          Nat.div_le_div_right (Nat.mul_le_mul_right source_len hisz)
      _ = source_len := Nat.mul_div_cancel_left source_len hmb
  have hle : max (itemsize * source_len / max_bytes) 1 ≤ source_len :=
    max_le hdiv hn
  exact Nat.lt_of_lt_of_le Nat.zero_lt_one
    ((Nat.one_le_div_iff (Nat.lt_of_lt_of_le Nat.zero_lt_one (le_max_right _ 1))).mpr hle)

theorem fetch_array_ok (max_bytes itemsize : ℕ) (src : List ℚ)
    (hne : src ≠ []) (hmb : 0 < max_bytes) (hisz : itemsize ≤ max_bytes) :
    ∃ res, fetch_array max_bytes itemsize src = Except.ok res := by
  have hn : 0 < src.length := List.length_pos.mpr hne
  have hm := fetch_max_elements_pos max_bytes itemsize src.length hmb hisz hn
  unfold fetch_array
  rw [if_neg hne, if_neg (Nat.pos_iff_ne_zero.mp hmb), if_neg (Nat.pos_iff_ne_zero.mp hm)]
  exact ⟨_, rfl⟩

/-- C1: in the bounded-distance path the ephemeral KD-tree is indeed built over
exactly the surviving points (spatial window mask AND secondary_mask), but the
returned local indices are translated through np.where(spatial_mask)[0], the
spatial-mask-only index mapping, not the survivors' mapping. With points
(0,0),(1,0), secondary_mask [False,True], query (0,0), max_distance 2, the only
survivor is point 1 and the tree's local index 0 should translate to dataset
index 1, yet the call returns index 0 - a point excluded by secondary_mask. -/
theorem nearest_neighbours_remap_uses_spatial_mask_only :
    nearest_neighbours (fun c _ _ => c) ⟨[(0, 0), (1, 0)], "native", none⟩ (0, 0) none 1
        (some 2) (some [false, true]) =
      Except.ok (([some 1], [0]), ⟨[(0, 0), (1, 0)], "native", none⟩) ∧
    np_where (np_logical_and
        (get_spatial_mask (fun cs _ _ => cs) "native" [(0, 0), (1, 0)] ⟨-2, -2, 2, 2⟩ none)
        [false, true]) = [1] := by
  exact ⟨by with_unfolding_all rfl, by with_unfolding_all rfl⟩

/-- C2: the first call with no max_distance and a custom secondary_mask builds
the KD-tree over only the mask's surviving points and installs it as the cached
self.kdtree, so the cached full-dataset index is not built over the full
coordinate cache. With points (0,0),(5,5) and secondary_mask [True,False], the
installed cache is a tree over [(0,0)] alone, not over the full cache. -/
theorem cached_kdtree_built_over_masked_subset :
    nearest_neighbours (fun c _ _ => c) ⟨[(0, 0), (5, 5)], "native", none⟩ (0, 0) none 1
        none (some [true, false]) =
      Except.ok (([some 0], [0]), ⟨[(0, 0), (5, 5)], "native", some ⟨[(0, 0)]⟩⟩) ∧
    (⟨[(0, 0)]⟩ : cKDTree) ≠ ⟨[(0, 0), (5, 5)]⟩ := by
  exact ⟨by with_unfolding_all rfl, by with_unfolding_all decide⟩

/-- C3: the emitted geotransform's envelope does not always contain the
requested rectangle. For the requested rectangle (0,0,1.3,1.3) at resolution
0.5, the upper snap floor(1.3/0.5 - 1)*0.5 + 0.5 = 1.0 moves the edge inward
and the envelope is (-0.25,-0.25,1.25,1.25), which misses xmax = ymax = 1.3. -/
theorem grid_envelope_misses_requested_rectangle :
    grid_envelope (1 / 2) ⟨0, 0, 13 / 10, 13 / 10⟩ = ⟨-(1 / 4), -(1 / 4), 5 / 4, 5 / 4⟩ ∧
    ¬ contains_bounds (grid_envelope (1 / 2) ⟨0, 0, 13 / 10, 13 / 10⟩)
        ⟨0, 0, 13 / 10, 13 / 10⟩ := by
  exact ⟨by with_unfolding_all rfl, by with_unfolding_all decide⟩

/-- C4: fetch_array does copy the array element for element, but not in pieces
bounded by max_bytes: for a 10-element array of 1-byte elements with
max_bytes = 7, pieces_required = 10 * 1 // 7 = 1 (floor division), so the whole
array is copied as a single 10-byte slice larger than max_bytes. -/
theorem fetch_array_piece_exceeds_max_bytes :
    fetch_array_slices 7 1 10 = [(0, 10)] ∧ (10 - 0) * 1 > 7 ∧
    fetch_array 7 1 [0, 1, 2, 3, 4, 5, 6, 7, 8, 9] =
      Except.ok [0, 1, 2, 3, 4, 5, 6, 7, 8, 9] := by
  exact ⟨by decide, by decide, by with_unfolding_all rfl⟩

/-- C5 counterexample: a dataset with no longitude variable makes construction
fail with a KeyError, not a DatasetShapeError (no DatasetShapeError exists in
the source), refuting the claim that construction fails with a
DatasetShapeError and no other kind of failure. -/
theorem pointUtils_init_keyerror_not_shape_error :
    pointUtils_init 8 8 ⟨1, none, some fun _ => 0⟩ = Except.error PyError.keyError ∧
    PyError.keyError ≠ PyError.datasetShapeError := by
  exact ⟨rfl, by decide⟩

/-- C5 (amended): whenever longitude or latitude is absent or the point
dimension has length zero, construction fails - but with a KeyError (missing
coordinate variable) or an IndexError (zero-length point dimension inside
fetch_array), never with a DatasetShapeError. Stated for any sane transfer cap
(positive and at least one element per piece). -/
theorem pointUtils_init_fails_without_shape_error (max_bytes itemsize : ℕ) (ds : Dataset)
    (hmb : 0 < max_bytes) (hisz : itemsize ≤ max_bytes)
    (h : ds.longitude = none ∨ ds.latitude = none ∨ ds.point_len = 0) :
    ∃ e, pointUtils_init max_bytes itemsize ds = Except.error e ∧
      (e = PyError.keyError ∨ e = PyError.indexError) := by
  obtain ⟨pl, lon, lat⟩ := ds
  cases lon with
  | none => exact ⟨PyError.keyError, rfl, Or.inl rfl⟩
  | some lonf =>
    rcases h with h | h | h
    · simp at h
    · simp only at h
      subst h
      rcases Nat.eq_zero_or_pos pl with h0 | hpos
      · subst h0
        exact ⟨PyError.indexError, rfl, Or.inr rfl⟩
      · have hne : ((List.range pl).map lonf) ≠ [] := by
          simp [List.map_eq_nil_iff, List.range_eq_nil]
          omega
        obtain ⟨res, hres⟩ := fetch_array_ok max_bytes itemsize _ hne hmb hisz
        refine ⟨PyError.keyError, ?_, Or.inl rfl⟩
        simp only [pointUtils_init, hres]
    · simp only at h
      subst h
      exact ⟨PyError.indexError, rfl, Or.inr rfl⟩

/-- C5 witness: the amended theorem applied to a concrete dataset with a
zero-length point dimension. -/
theorem pointUtils_init_fails_without_shape_error_witness :
    ∃ e, pointUtils_init 8 8 ⟨0, some fun _ => 0, some fun _ => 0⟩ = Except.error e ∧
      (e = PyError.keyError ∨ e = PyError.indexError) :=
  pointUtils_init_fails_without_shape_error 8 8 ⟨0, some fun _ => 0, some fun _ => 0⟩
    (by decide) (by decide) (Or.inr (Or.inr rfl))

/-- C6: with max_distance = 1 and a single point (0.9, 0.9), the point lies in
the square window but outside the Euclidean distance bound, so the KD-tree
query yields the missing-neighbour sentinel (infinite distance, index = tree
size) and the remap through np.where(spatial_mask)[0] raises IndexError - the
call errors instead of returning empty sequences, and nothing bounded by d is
returned. -/
theorem nearest_neighbours_raises_on_empty_ball :
    nearest_neighbours (fun c _ _ => c) ⟨[(9 / 10, 9 / 10)], "native", none⟩ (0, 0) none 1
        (some 1) none = Except.error PyError.indexError := by
  with_unfolding_all rfl

/-- C7: the decimation slice mask[0:-1:point_step] excludes the last point, so
with point_step = 1 and an all-true spatial mask over two points the combined
point-subset mask is [true, false], not the claimed every-point mask: index 1
is a multiple of 1 and spatially inside, yet it is dropped. -/
theorem point_subset_mask_drops_last_point :
    point_subset_mask [true, true] 1 = [true, false] ∧ 1 % 1 = 0 := by
  exact ⟨by decide, by decide⟩

/-- C8: get_reprojected_bounds is the identity whenever source and target CRS
coincide or either is unset; the result is the unchanged input bounds for every
possible transform function, so no transform call can influence it. -/
theorem get_reprojected_bounds_identity
    (transform_coords : List (ℚ × ℚ) → String → String → List (ℚ × ℚ))
    (bounds : Bounds) (crs : Option String) :
    get_reprojected_bounds transform_coords bounds crs crs = bounds ∧
    get_reprojected_bounds transform_coords bounds none crs = bounds ∧
    get_reprojected_bounds transform_coords bounds crs none = bounds := by
  refine ⟨?_, ?_, ?_⟩ <;> simp [get_reprojected_bounds]

/-- C9: the spatial mask is true at index i exactly when the point's coordinate
lies in the closed rectangle, inclusive on all four sides. -/
theorem get_spatial_mask_inclusive_iff
    (transform_coords : List (ℚ × ℚ) → String → String → List (ℚ × ℚ))
    (self_wkt : String) (xycoords : List (ℚ × ℚ)) (bounds : Bounds) (i : ℕ) (p : ℚ × ℚ)
    (h : xycoords[i]? = some p) :
    (get_spatial_mask transform_coords self_wkt xycoords bounds none)[i]? = some true ↔
      (bounds.xmin ≤ p.1 ∧ p.1 ≤ bounds.xmax ∧ bounds.ymin ≤ p.2 ∧ p.2 ≤ bounds.ymax) := by
  simp [get_spatial_mask, List.getElem?_map, h, and_assoc]

/-- C9 witness: a point exactly at the rectangle's (min_x, min_y) corner is
included in the mask. -/
theorem get_spatial_mask_inclusive_iff_witness :
    (get_spatial_mask (fun cs _ _ => cs) "native" [((0 : ℚ), (0 : ℚ))] ⟨0, 0, 1, 1⟩ none)[0]? =
      some true :=
  (get_spatial_mask_inclusive_iff (fun cs _ _ => cs) "native" [((0 : ℚ), (0 : ℚ))]
      ⟨0, 0, 1, 1⟩ 0 ((0 : ℚ), (0 : ℚ)) rfl).mpr (by norm_num)

/-- C10: max_distance = 0 is falsy in the source's "if max_distance:" test, so
a call with max_distance 0 (and default secondary mask) is exactly the call
with max_distance omitted: the cached full-dataset KD-tree is (built and)
queried with an infinite distance upper bound. -/
theorem nearest_neighbours_zero_max_distance_falsy
    (transform_coords : (ℚ × ℚ) → String → String → (ℚ × ℚ))
    (self : NetCDFPointUtilsState) (coordinates : ℚ × ℚ) (wkt : Option String)
    (points_required : ℕ) :
    nearest_neighbours transform_coords self coordinates wkt points_required (some 0) none =
      nearest_neighbours transform_coords self coordinates wkt points_required none none := by
  exact rfl

end GeophysUtils
